import Mathlib

/-!
Verification of the career-guidance prototype frontend
(`src/frontend/script.js`) against its natural-language specification.

The script is DOM-scripting glue; we shallowly embed its state-bearing
logic: the wizard step navigator and progress indicator, the defensive
JSON parse `safeJSON`, the session helpers, the quiz-modal question
stepper, and the signup validation path.  Components the specification
describes that are not present in this copy of the source (the
`goToStep` clamping navigator, the Tag Scorer, the Fallback Recommender,
`saveQuizLocal` and the submission coordinator) are modelled from the
specification's words and marked as such in their doc comments.
-/

namespace CareerGuidance

/-! ## Wizard progress indicator (`updateWizardUI`, script.js lines 246-262) -/

/-- JavaScript `Math.round (num / den)` for nonnegative rationals:
round half away from zero, i.e. `⌊num/den + 1/2⌋`. -/
def jsRound (num den : Nat) : Nat := (2 * num + den) / (2 * den)

/-- Display state written by `updateWizardUI`: per-step active flags,
prev-button disabled flag, next/submit visibility, and the progress-bar
percentage.  The source guards on `stepEls.length == 0` (early return);
we model the display state for a given step count `len`. -/
structure WizardUI where
  activeFlags : List Bool
  prevDisabled : Bool
  nextVisible : Bool
  submitVisible : Bool
  pct : Nat
  deriving Repr, DecidableEq

/-- Embedding of `updateWizardUI` (script.js 247-262): step `i` is active
iff `i == currentStepIndex`; prev disabled at index 0; next hidden and
submit shown exactly on the last step; progress percentage is
`Math.round(((currentStepIndex + 1) / Math.max(1, stepEls.length)) * 100)`. -/
def updateWizardUI (currentStepIndex len : Nat) : WizardUI :=
  { activeFlags := (List.range len).map (fun i => decide (i = currentStepIndex))
    prevDisabled := decide (currentStepIndex = 0)
    nextVisible := decide (¬ (currentStepIndex = len - 1))
    submitVisible := decide (currentStepIndex = len - 1)
    pct := jsRound ((currentStepIndex + 1) * 100) (max 1 len) }

/-- The specification's percent formula, written from the spec's words
(`round((currentStep-1)/(totalSteps-1) * 100)`, 1-based `currentStep`),
for comparison with the source's computation. -/
def specPercent (currentStep totalSteps : Nat) : Nat :=
  jsRound ((currentStep - 1) * 100) (totalSteps - 1)

/-! ## Wizard navigation (script.js 263-278) and the spec's `goToStep` -/

/-- Embedding of the `nextBtn` click handler (script.js 263-270):
increment `currentStepIndex` only while strictly below the last index.
(`stepEls.length - 1` is JavaScript arithmetic; for `len = 0` the guard
`idx < -1` is false, and `Nat` truncated subtraction gives the same
no-op behaviour since `idx < 0` is false.) -/
def nextClick (idx len : Nat) : Nat :=
  if idx < len - 1 then idx + 1 else idx

/-- Embedding of the `prevBtn` click handler (script.js 271-278):
decrement `currentStepIndex` only while strictly positive. -/
def prevClick (idx : Nat) : Nat :=
  if 0 < idx then idx - 1 else idx

/-- Modelled from the spec: `goToStep(n)` is described by the Step
Navigator contract ("clamps `n` into `[1, totalSteps]`, sets it as
current") but this copy of the source has no `goToStep` function, only
the next/prev handlers.  We model the clamp on integers with 1-based
steps. -/
def goToStep (n totalSteps : Int) : Int := max 1 (min n totalSteps)

/-! ## Defensive JSON parse (`safeJSON`, script.js 70-77) -/

/-- JSON values as returned by `JSON.parse`. -/
inductive Json where
  | nullv : Json
  | boolv : Bool → Json
  | num : Int → Json
  | str : String → Json
  | arr : List Json → Json
  | obj : List (String × Json) → Json

/-- Embedding of `safeJSON` (script.js 70-77) applied to a response body
`txt`.  `JSON.parse` is a browser builtin, modelled as an abstract
`parse : String → Option Json` where `none` means the parse throws.
The source returns `{}` for an empty body, the parsed value when the
parse succeeds, and `null` when it throws (the catch branch); all three
are ordinary JavaScript values, so the result type is `Json` with the
thrown case mapped to `Json.nullv`. -/
def safeJSON (parse : String → Option Json) (txt : String) : Json :=
  if txt = "" then Json.obj []
  else
    match parse txt with
    | some v => v
    | none => Json.nullv

/-! ## Session helpers (`setSession`, script.js 27-30) -/

/-- The two localStorage slots the session helpers touch
(`cg_user_id` and `cg_access_token`); `none` means the key is absent. -/
structure SessionStore where
  userId : Option String
  token : Option String
  deriving Repr, DecidableEq

/-- Embedding of `setSession` (script.js 27-30): each
`localStorage.setItem` is guarded by JavaScript truthiness of the
corresponding argument; for strings, truthy means nonempty. -/
def setSession (st : SessionStore) (userId accessToken : String) : SessionStore :=
  { userId := if userId = "" then st.userId else some userId
    token := if accessToken = "" then st.token else some accessToken }

/-! ## Quiz modal (script.js 597-656) -/

/-- A quiz question record from the `quizData` array (script.js 597-623). -/
structure QuizQuestion where
  id : String
  question : String
  options : List String
  deriving Repr, DecidableEq

/-- Embedding of the `quizData` array (script.js 597-623). -/
def quizData : List QuizQuestion :=
  [ { id := "q1"
      question := "Which subject excites you the most?"
      options := ["Physics", "Biology", "Mathematics", "Arts", "Commerce", "Computer Science"] },
    { id := "q2"
      question := "Which type of work appeals to you?"
      options := ["Helping People", "Building Technology", "Doing Research", "Creative Arts", "Business/Commerce"] },
    { id := "q3"
      question := "Rate your Analytical Skills (1-5)"
      options := ["1", "2", "3", "4", "5"] },
    { id := "q4"
      question := "What is more important for you?"
      options := ["High Salary Early", "Job Security", "Long-Term Growth", "Work-Life Balance"] },
    { id := "q5"
      question := "Do you want to study outside Jammu & Kashmir?"
      options := ["Yes", "No"] } ]

/-- First-match lookup in an answer record, mirroring JavaScript object
property access `answers[key]`. -/
def lookupAnswer : List (String × String) → String → Option String
  | [], _ => none
  | (k, v) :: rest, key => if key = k then some v else lookupAnswer rest key

/-- JavaScript object property assignment `answers[key] = value`:
the key ends up bound to `value` exactly once. -/
def setAnswer (l : List (String × String)) (k v : String) : List (String × String) :=
  (k, v) :: l.filter (fun p => p.1 != k)

/-- The quiz modal's mutable state: `currentQuestion` (script.js 625)
and the `answers` object (script.js 626). -/
structure QuizState where
  currentQuestion : Nat
  answers : List (String × String)
  deriving Repr, DecidableEq

/-- Embedding of the quiz `nextBtn` click handler (script.js 644-656).
`selected` is the checked radio's value, `none` when no option is
checked.  With no selection the handler alerts and returns with the
state unchanged; otherwise it records the answer under the current
question's id and then increments `currentQuestion`.  The second
component is the alert message, if any.  (When `currentQuestion` is out
of range the JavaScript expression `quizData[currentQuestion].id` would
throw; that branch is unreachable while the Next button is shown, and
every theorem below assumes the in-range guard.) -/
def quizNext (st : QuizState) (selected : Option String) : QuizState × Option String :=
  match quizData[st.currentQuestion]? with
  | none => (st, none)
  | some q =>
    match selected with
    | none => (st, some "Please select an option")
    | some v =>
      ({ currentQuestion := st.currentQuestion + 1
         answers := setAnswer st.answers q.id v }, none)

/-- The invariant the claim states for the quiz stepper:
`currentQuestion` never exceeds `quizData.length`, and every question
index below `currentQuestion` has a recorded answer. -/
def quizInvariant (st : QuizState) : Prop :=
  st.currentQuestion ≤ quizData.length ∧
  ∀ i, i < st.currentQuestion →
    ((quizData[i]?).bind (fun q => lookupAnswer st.answers q.id)).isSome = true

instance (st : QuizState) : Decidable (quizInvariant st) := by
  unfold quizInvariant
  exact instDecidableAnd

/-! ## Signup validation (script.js 166-223) -/

/-- Outcome of the signup submit handler up to the point where a network
request would be issued: either a synchronous validation message shown
via `showStatus` (the handler returns, no fetch), or the `/signup`
request body. -/
inductive SignupOutcome where
  | validationError : String → SignupOutcome
  | request : (full_name email password : String) → SignupOutcome
  deriving Repr, DecidableEq

/-- ASCII whitespace, as stripped by JavaScript `String.trim`. -/
def isWhite (c : Char) : Bool := c = ' ' ∨ c = '\t' ∨ c = '\n' ∨ c = '\r'

/-- ASCII lower-casing of one character (JavaScript `toLowerCase`). -/
def toLowerChar (c : Char) : Char :=
  if 'A' ≤ c ∧ c ≤ 'Z' then Char.ofNat (c.toNat + 32) else c

/-- The source's email normalization `email.trim().toLowerCase()`
(script.js 172), for ASCII input. -/
def normEmail (s : String) : String :=
  ⟨(((s.data.dropWhile isWhite).reverse.dropWhile isWhite).reverse).map toLowerChar⟩

/-- Embedding of the validation phase of the signup submit handler
(script.js 166-191): the email field is trimmed and lower-cased, then
missing name/email/password and a password mismatch are reported via
inline status text and the handler returns before any fetch. -/
def signupSubmit (full_name rawEmail password password2 : String) : SignupOutcome :=
  let email := normEmail rawEmail
  if full_name = "" ∨ email = "" ∨ password = "" then
    .validationError "Please fill name, email and password."
  else if password ≠ password2 then
    .validationError "Passwords do not match."
  else
    .request full_name email password

/-! ## Tag Scorer weight mapping (spec section 4.2)

This copy of the source has no Tag Scorer; the component is modelled
from the specification. -/

/-- Parse of a numeric option string (the quiz's numeric options are
digit strings such as `"3"`): `some` of its value when the string is a
nonempty run of digits, `none` otherwise. -/
def parseDigits (s : String) : Option Nat :=
  if s ≠ "" ∧ s.data.all (fun c => c.isDigit) then
    some (s.data.foldl (fun a c => a * 10 + (c.toNat - 48)) 0)
  else none

/-- Modelled from the spec: the Tag Scorer's weight mapping (section
4.2, missing from this copy of the source): frequency words
(`"always"` → 2, `"sometimes"` → 1, `"rarely"`/`"never"` → 0), else a
numeric string parsed directly, else a default weight of 1. -/
def optionWeight (v : String) : Nat :=
  if v = "always" then 2
  else if v = "sometimes" then 1
  else if v = "rarely" ∨ v = "never" then 0
  else
    match parseDigits v with
    | some n => n
    | none => 1

/-! ## Fallback Recommender (spec section 4.4)

This copy of the source has no Fallback Recommender; the component is
modelled from the specification. -/

/-- Mapping from tag to accumulated numeric weight, in insertion order. -/
abbrev TagScoreMap := List (String × Nat)

/-- A college entry of a RecommendationResult (spec section 3). -/
structure College where
  name : String
  medium : String
  hostel : Bool
  distance : Nat
  fees : Nat
  deriving Repr, DecidableEq

/-- A recommendation result (spec section 3): suggested stream, ranked
college list, scholarship list, free-text roadmap and reason. -/
structure RecommendationResult where
  stream : String
  colleges : List College
  scholarships : List String
  roadmap : String
  reason : String
  deriving Repr, DecidableEq

/-- Insert one scored tag into a list kept in descending weight order,
placing it before the first strictly lighter entry (earlier equal-weight
entries stay ahead, so the order is stable). -/
def insertRanked (x : String × Nat) : List (String × Nat) → List (String × Nat)
  | [] => [x]
  | y :: ys => if y.2 < x.2 then x :: y :: ys else y :: insertRanked x ys

/-- Rank tags by accumulated weight, descending. -/
def rankTags (m : TagScoreMap) : List (String × Nat) :=
  m.foldr insertRanked []

/-- The single highest-weighted tag, if any. -/
def topTag (m : TagScoreMap) : Option String :=
  (rankTags m).head?.map Prod.fst

/-- `needle` matches `hay` at its start. -/
def matchesAt : List Char → List Char → Bool
  | [], _ => true
  | _ :: _, [] => false
  | a :: as, b :: bs => a = b && matchesAt as bs

/-- `needle` occurs somewhere in `hay`. -/
def hasSub (needle : List Char) : List Char → Bool
  | [] => matchesAt needle []
  | c :: t => matchesAt needle (c :: t) || hasSub needle t

/-- Substring membership on strings (JavaScript `tag.includes(kw)`). -/
def strContains (hay needle : String) : Bool :=
  hasSub needle.data hay.data

/-- Modelled from the spec: stream chosen by the Fallback Recommender
(section 4.4, missing from this copy of the source): inspect only the
top tag's text for substring membership in fixed keyword sets. -/
def fallbackStream (m : TagScoreMap) : String :=
  match topTag m with
  | none => "General Arts/Commerce"
  | some t =>
    if ["lab", "practical", "analytical", "maths"].any (fun kw => strContains t kw) then "Science"
    else if ["communication", "arts"].any (fun kw => strContains t kw) then "Arts"
    else if ["business", "commerce"].any (fun kw => strContains t kw) then "Commerce"
    else "General Arts/Commerce"

/-- Modelled from the spec: the Fallback Recommender (section 4.4,
missing from this copy of the source): a pure function of the
TagScoreMap producing the chosen stream, a fixed pair of placeholder
college entries, an empty scholarship list, and the fixed offline-mode
reason. -/
def fallbackRecommend (m : TagScoreMap) : RecommendationResult :=
  { stream := fallbackStream m
    colleges :=
      [ { name := "Government Degree College A", medium := "English"
          hostel := true, distance := 10, fees := 5000 },
        { name := "Government Degree College B", medium := "English"
          hostel := false, distance := 25, fees := 3000 } ]
    scholarships := []
    roadmap := "Explore the suggested stream."
    reason := "Fallback recommendation (offline mode)" }

/-! ## Local Session Store (spec section 4.6) and Submission
Coordinator (spec section 4.3)

This copy of the source has neither `saveQuizLocal` nor the
quiz-submission coordinator with its fallback path; both are modelled
from the specification, on top of a key-value model of localStorage. -/

/-- The quiz payload as far as the fallback path reads it: the answer
record and the accumulated tag scores. -/
structure QuizPayload where
  answers : List (String × String)
  tagScores : List (String × Nat)
  deriving Repr, DecidableEq

/-- A persisted "last quiz" entry (spec section 3):
`{ timestamp, payload, result }`. -/
structure SavedQuizEntry where
  timestamp : Nat
  payload : QuizPayload
  result : RecommendationResult
  deriving Repr, DecidableEq

/-- localStorage modelled as a list of key-entry pairs with unique keys. -/
abbrev Store := List (String × SavedQuizEntry)

/-- `localStorage.setItem`: the key ends up bound exactly once, to `v`. -/
def setItem (s : Store) (k : String) (v : SavedQuizEntry) : Store :=
  (k, v) :: s.filter (fun p => p.1 != k)

/-- `localStorage.getItem`. -/
def getItem : Store → String → Option SavedQuizEntry
  | [], _ => none
  | (k, v) :: rest, key => if key = k then some v else getItem rest key

/-- The localStorage key of the single "last quiz" snapshot. -/
def lastQuizKey : String := "cg_last_quiz"

/-- Modelled from the spec: `saveQuizLocal` (section 4.6, missing from
this copy of the source) persists exactly one "last quiz" record with
overwrite semantics. -/
def saveQuizLocal (s : Store) (e : SavedQuizEntry) : Store :=
  setItem s lastQuizKey e

/-- Number of retrievable records stored under key `k`. -/
def countKey (s : Store) (k : String) : Nat :=
  (s.filter (fun p => p.1 == k)).length

/-- Modelled from the spec: the Submission Coordinator's completion path
(section 4.3, missing from this copy of the source).  `response` is the
backend call's outcome: `.ok` a parsed RecommendationResult, `.error`
a non-success status or network rejection.  On failure it delegates to
the Fallback Recommender; either way the Renderer receives a result and
the Local Session Store records it.  The first component is the result
handed to the Renderer (`none` would mean the Renderer is never
invoked). -/
def submitQuizFlow (response : Except Unit RecommendationResult)
    (payload : QuizPayload) (now : Nat) (store : Store) :
    Option RecommendationResult × Store :=
  match response with
  | .ok r => (some r, saveQuizLocal store ⟨now, payload, r⟩)
  | .error _ =>
    let fb := fallbackRecommend payload.tagScores
    (some fb, saveQuizLocal store ⟨now, payload, fb⟩)

/-! ## Helper lemmas -/

/-- Landing exactly on the last of `len ≥ 1` steps always shows 100%. -/
theorem jsRound_last (len : Nat) (h : 1 ≤ len) :
    jsRound (len * 100) len = 100 := by
  unfold jsRound
  have hrw : 2 * (len * 100) + len = len + 2 * len * 100 := by ring
  rw [hrw, Nat.add_mul_div_left len 100 (by omega : 0 < 2 * len),
    Nat.div_eq_of_lt (by omega), Nat.zero_add]

/-- `getItem` after `setItem` at the same key retrieves the new entry. -/
theorem getItem_setItem (s : Store) (k : String) (v : SavedQuizEntry) :
    getItem (setItem s k v) k = some v := by
  simp [getItem, setItem]

/-- Filtering for key `k` after filtering `k` away leaves nothing. -/
theorem filter_eq_after_filter_ne (k : String) :
    ∀ s : List (String × SavedQuizEntry),
      (s.filter (fun p => p.1 != k)).filter (fun p => p.1 == k) = []
  | [] => rfl
  | p :: rest => by
    by_cases h : p.1 = k <;>
      simp [List.filter_cons, h, filter_eq_after_filter_ne k rest]

/-- Looking up the key just written by `setAnswer`. -/
theorem lookupAnswer_setAnswer_self (l : List (String × String)) (k v : String) :
    lookupAnswer (setAnswer l k v) k = some v := by
  simp [setAnswer, lookupAnswer]

/-- Filtering key `k` out of an answer record does not change lookups of
other keys. -/
theorem lookupAnswer_filter (k key : String) (h : key ≠ k) :
    ∀ l : List (String × String),
      lookupAnswer (l.filter (fun p => p.1 != k)) key = lookupAnswer l key
  | [] => rfl
  | (a, b) :: rest => by
    by_cases ha : a = k
    · subst ha
      simp [List.filter_cons, lookupAnswer, h, lookupAnswer_filter _ _ h rest]
    · by_cases hk : key = a
      · subst hk
        simp [List.filter_cons, lookupAnswer, ha]
      · simp [List.filter_cons, lookupAnswer, ha, hk, lookupAnswer_filter _ _ h rest]

/-- `setAnswer` does not change lookups of other keys. -/
theorem lookupAnswer_setAnswer_ne (l : List (String × String)) (k v key : String)
    (h : key ≠ k) :
    lookupAnswer (setAnswer l k v) key = lookupAnswer l key := by
  simp [setAnswer, lookupAnswer, h, lookupAnswer_filter k key h l]

/-! ## Claims -/

/-- C1 (amended): the percent-complete indicator recomputed by
`updateWizardUI` equals `round((currentStepIndex+1) / max(1, totalSteps)
* 100)`, i.e. `round(currentStep/totalSteps*100)` in 1-based steps; for
`totalSteps = 4`, step 1 yields 25%, step 2 yields 50%, step 4 yields
100%, and on the last of `totalSteps ≥ 1` steps it always yields 100%. -/
theorem c1_percent_indicator :
    (∀ idx len : Nat,
        (updateWizardUI idx len).pct = jsRound ((idx + 1) * 100) (max 1 len)) ∧
    (updateWizardUI 0 4).pct = 25 ∧
    (updateWizardUI 1 4).pct = 50 ∧
    (updateWizardUI 3 4).pct = 100 ∧
    (∀ len : Nat, 1 ≤ len → (updateWizardUI (len - 1) len).pct = 100) := by
  refine ⟨fun idx len => rfl, by decide, by decide, by decide, fun len h => ?_⟩
  show jsRound ((len - 1 + 1) * 100) (max 1 len) = 100
  rw [Nat.sub_add_cancel h, Nat.max_eq_right h]
  exact jsRound_last len h

/-- C1 witness. -/
theorem c1_percent_indicator_witness : (updateWizardUI 6 7).pct = 100 :=
  c1_percent_indicator.2.2.2.2 7 (by decide)

/-- C1 counterexample: at step 1 of a 4-step wizard the source computes
25%, while the claimed formula `round((currentStep-1)/(totalSteps-1) *
100)` gives 0%; the two disagree. -/
theorem c1_counterexample :
    (updateWizardUI 0 4).pct = 25 ∧ specPercent 1 4 = 0 ∧
    (updateWizardUI 0 4).pct ≠ specPercent 1 4 := by
  refine ⟨by decide, by decide, by decide⟩

/-- C2: the spec's `goToStep(n)` (modelled from the spec: absent from
this copy of the source) clamps `n` into `[1, totalSteps]`, so
`goToStep 0 = goToStep 1` and `goToStep (totalSteps+5) =
goToStep totalSteps`, and the resulting current step always satisfies
`1 ≤ currentStep ≤ totalSteps`; the source's next/prev click handlers
likewise keep the (0-based) step index within bounds. -/
theorem c2_goToStep_clamps (t n : Int) (ht : 1 ≤ t) :
    (1 ≤ goToStep n t ∧ goToStep n t ≤ t) ∧
    goToStep 0 t = goToStep 1 t ∧
    goToStep (t + 5) t = goToStep t t ∧
    (∀ idx len : Nat, idx + 1 ≤ len →
      nextClick idx len + 1 ≤ len ∧ prevClick idx + 1 ≤ len) := by
  refine ⟨?_, ?_, ?_, ?_⟩
  · unfold goToStep; constructor <;> omega
  · unfold goToStep; omega
  · unfold goToStep; omega
  · intro idx len h
    unfold nextClick prevClick
    constructor <;> split <;> omega

/-- C2 witness. -/
theorem c2_goToStep_clamps_witness :
    1 ≤ goToStep 9 4 ∧ goToStep 9 4 ≤ 4 ∧ goToStep 0 4 = goToStep 1 4 ∧
    goToStep (4 + 5) 4 = goToStep 4 4 ∧ nextClick 3 4 + 1 ≤ 4 := by
  have h := c2_goToStep_clamps 4 9 (by decide)
  exact ⟨h.1.1, h.1.2, h.2.1, h.2.2.1, (h.2.2.2 3 4 (by decide)).1⟩

/-- C3 (amended): `safeJSON` never throws: it returns the empty record
for an empty body, the parsed value for a parsable nonempty body, and
`null` (not an empty record) for a nonempty body that is not valid
JSON — so callers always receive a JavaScript value, which the call
sites null-check. -/
theorem c3_safeJSON (parse : String → Option Json) (txt : String) :
    (txt = "" → safeJSON parse txt = Json.obj []) ∧
    (txt ≠ "" → parse txt = none → safeJSON parse txt = Json.nullv) ∧
    (∀ v, txt ≠ "" → parse txt = some v → safeJSON parse txt = v) := by
  refine ⟨fun h => by simp [safeJSON, h], fun h hp => ?_, fun v h hp => ?_⟩
  · simp [safeJSON, h, hp]
  · simp [safeJSON, h, hp]

/-- C3 witness. -/
theorem c3_safeJSON_witness : safeJSON (fun _ => none) "oops" = Json.nullv :=
  (c3_safeJSON (fun _ => none) "oops").2.1 (by decide) rfl

/-- C3 counterexample: for a nonempty body on which the parse throws,
`safeJSON` returns `null`, not the empty record the claim states. -/
theorem c3_counterexample :
    safeJSON (fun _ => none) "garbage" = Json.nullv ∧
    Json.nullv ≠ Json.obj [] :=
  ⟨rfl, fun h => Json.noConfusion h⟩

/-- C4 (spec-modelled): the Tag Scorer's weight mapping returns 2 for
"always", 1 for "sometimes", 0 for "rarely" and "never", the parsed
number for any numeric string ("3" yields 3), and the default weight 1
for every other non-numeric value ("maybe" yields 1). -/
theorem c4_weight_mapping :
    optionWeight "always" = 2 ∧ optionWeight "sometimes" = 1 ∧
    optionWeight "rarely" = 0 ∧ optionWeight "never" = 0 ∧
    optionWeight "3" = 3 ∧ optionWeight "maybe" = 1 ∧
    (∀ s n, parseDigits s = some n → optionWeight s = n) ∧
    (∀ s, parseDigits s = none → s ≠ "always" → s ≠ "sometimes" →
      s ≠ "rarely" → s ≠ "never" → optionWeight s = 1) := by
  refine ⟨by decide, by decide, by decide, by decide, by decide, by decide, ?_, ?_⟩
  · intro s n h
    have hd : s.data.all (fun c => c.isDigit) = true := by
      by_cases hc : s ≠ "" ∧ s.data.all (fun c => c.isDigit) = true
      · exact hc.2
      · simp only [parseDigits, if_neg hc] at h
        exact absurd h (by simp)
    have h1 : ¬ s = "always" := by
      rintro rfl; exact absurd hd (by decide)
    have h2 : ¬ s = "sometimes" := by
      rintro rfl; exact absurd hd (by decide)
    have h3 : ¬ (s = "rarely" ∨ s = "never") := by
      rintro (rfl | rfl) <;> exact absurd hd (by decide)
    simp [optionWeight, h1, h2, h3, h]
  · intro s h h1 h2 h3 h4
    simp [optionWeight, h1, h2, h3, h4, h]

/-- C4 witness. -/
theorem c4_weight_mapping_witness :
    optionWeight "42" = 42 ∧ optionWeight "hello" = 1 :=
  ⟨c4_weight_mapping.2.2.2.2.2.2.1 "42" 42 (by decide),
   c4_weight_mapping.2.2.2.2.2.2.2 "hello" (by decide) (by decide) (by decide)
     (by decide) (by decide)⟩

/-- C5 (spec-modelled): on quiz-submission failure the coordinator
delegates to the Fallback Recommender: the Renderer receives the
(non-null) fallback RecommendationResult, and the Local Session Store
records that fallback result under the last-quiz key. -/
theorem c5_failure_fallback (payload : QuizPayload) (now : Nat) (store : Store) :
    (submitQuizFlow (.error ()) payload now store).1
      = some (fallbackRecommend payload.tagScores) ∧
    ((submitQuizFlow (.error ()) payload now store).1).isSome = true ∧
    getItem (submitQuizFlow (.error ()) payload now store).2 lastQuizKey
      = some ⟨now, payload, fallbackRecommend payload.tagScores⟩ := by
  refine ⟨rfl, rfl, ?_⟩
  exact getItem_setItem store lastQuizKey _

/-- C6 (spec-modelled): the Fallback Recommender is a deterministic
function of the TagScoreMap: identical input maps yield the identical
output stream label. -/
theorem c6_fallback_deterministic (m1 m2 : TagScoreMap) (h : m1 = m2) :
    (fallbackRecommend m1).stream = (fallbackRecommend m2).stream := by
  rw [h]

/-- C6 witness. -/
theorem c6_fallback_deterministic_witness :
    (fallbackRecommend [("a", 3), ("b", 5), ("c", 1)]).stream
      = (fallbackRecommend [("a", 3), ("b", 5), ("c", 1)]).stream :=
  c6_fallback_deterministic _ _ rfl

/-- C7 (spec-modelled): `saveQuizLocal` has overwrite semantics: after
two consecutive saves exactly one retrievable last-quiz record exists,
and it matches the second save. -/
theorem c7_last_quiz_overwrite (s : Store) (e1 e2 : SavedQuizEntry) :
    getItem (saveQuizLocal (saveQuizLocal s e1) e2) lastQuizKey = some e2 ∧
    countKey (saveQuizLocal (saveQuizLocal s e1) e2) lastQuizKey = 1 := by
  refine ⟨getItem_setItem _ _ _, ?_⟩
  unfold saveQuizLocal countKey setItem
  simp [List.filter_cons, filter_eq_after_filter_ne]

/-- C8: every validation error is reported synchronously and the
handler returns without submitting: a signup password mismatch (with
all required fields present) and missing signup fields each yield an
inline status message instead of a `/signup` request, and a missing
quiz answer yields a blocking alert with the quiz state unchanged; in
all three cases no network request is issued and nothing is thrown. -/
theorem c8_validation (f e p p2 : String) (st : QuizState)
    (hq : st.currentQuestion < quizData.length) :
    (f ≠ "" → normEmail e ≠ "" → p ≠ "" → p ≠ p2 →
      signupSubmit f e p p2 = .validationError "Passwords do not match.") ∧
    (f = "" ∨ normEmail e = "" ∨ p = "" →
      signupSubmit f e p p2 = .validationError "Please fill name, email and password.") ∧
    ((quizNext st none).1 = st ∧
      (quizNext st none).2 = some "Please select an option") := by
  obtain ⟨q, hqq⟩ : ∃ q, quizData[st.currentQuestion]? = some q :=
    ⟨_, List.getElem?_eq_getElem hq⟩
  refine ⟨fun h1 h2 h3 h4 => ?_, fun h => ?_, ?_, ?_⟩
  · simp [signupSubmit, h1, h2, h3, h4]
  · rcases h with h | h | h <;> simp [signupSubmit, h]
  · simp [quizNext, hqq]
  · simp [quizNext, hqq]

/-- C8 witness. -/
theorem c8_validation_witness :
    signupSubmit "Alice" " A@B.c " "pw1" "pw2"
      = SignupOutcome.validationError "Passwords do not match." ∧
    signupSubmit "" "a@b.c" "pw" "pw"
      = SignupOutcome.validationError "Please fill name, email and password." ∧
    (quizNext ⟨0, []⟩ none).1 = ⟨0, []⟩ := by
  have h := c8_validation "Alice" " A@B.c " "pw1" "pw2" ⟨0, []⟩ (by decide)
  have h0 := c8_validation "" "a@b.c" "pw" "pw" ⟨0, []⟩ (by decide)
  exact ⟨h.1 (by decide) (by decide) (by decide) (by decide),
    h0.2.1 (Or.inl rfl), h.2.2.1⟩

/-- C9: `setSession` writes each stored value only when the
corresponding argument is truthy (for strings: nonempty): an empty
access token leaves the previously stored token unchanged, an empty
user id leaves the stored user id unchanged, and in general each slot
is overwritten exactly when its argument is nonempty — so a login
response carrying no token silently retains the prior session's
token. -/
theorem c9_setSession (st : SessionStore) (uid tok : String) :
    (setSession st uid "").token = st.token ∧
    (setSession st "" tok).userId = st.userId ∧
    (setSession st uid tok).userId = (if uid = "" then st.userId else some uid) ∧
    (setSession st uid tok).token = (if tok = "" then st.token else some tok) := by
  refine ⟨by simp [setSession], by simp [setSession], rfl, rfl⟩

/-- C10: the quiz Next handler keeps `currentQuestion ≤ quizData.length`
with every earlier question answered: with no selection it leaves the
state unchanged, and with a selection it records the answer under the
current question's id and then increments `currentQuestion`, preserving
the invariant. -/
theorem c10_quizNext (st : QuizState) (sel : Option String)
    (hinv : quizInvariant st) (hq : st.currentQuestion < quizData.length) :
    (quizNext st none).1 = st ∧
    (∀ v, ∃ q, quizData[st.currentQuestion]? = some q ∧
      (quizNext st (some v)).1.currentQuestion = st.currentQuestion + 1 ∧
      lookupAnswer (quizNext st (some v)).1.answers q.id = some v) ∧
    quizInvariant (quizNext st sel).1 := by
  obtain ⟨q, hqq⟩ : ∃ q, quizData[st.currentQuestion]? = some q :=
    ⟨_, List.getElem?_eq_getElem hq⟩
  refine ⟨by simp [quizNext, hqq], fun v => ⟨q, hqq, by simp [quizNext, hqq],
    by simp [quizNext, hqq, lookupAnswer_setAnswer_self]⟩, ?_⟩
  cases sel with
  | none => simpa [quizNext, hqq] using hinv
  | some v =>
    simp only [quizNext, hqq]
    refine ⟨?_, ?_⟩
    · show st.currentQuestion + 1 ≤ quizData.length
      omega
    · intro i hi
      have hi' : i < st.currentQuestion + 1 := hi
      by_cases hic : i = st.currentQuestion
      · subst hic
        rw [hqq]
        show (lookupAnswer (setAnswer st.answers q.id v) q.id).isSome = true
        rw [lookupAnswer_setAnswer_self]
        rfl
      · have hilt : i < st.currentQuestion := by omega
        have hold := hinv.2 i hilt
        obtain ⟨qi, hqi⟩ : ∃ qi, quizData[i]? = some qi := by
          cases hqd : quizData[i]? with
          | none => rw [hqd] at hold; simp at hold
          | some qi => exact ⟨qi, rfl⟩
        rw [hqi] at hold
        rw [hqi]
        have hold' : (lookupAnswer st.answers qi.id).isSome = true := hold
        show (lookupAnswer (setAnswer st.answers q.id v) qi.id).isSome = true
        by_cases hid : qi.id = q.id
        · rw [hid, lookupAnswer_setAnswer_self]; rfl
        · rw [lookupAnswer_setAnswer_ne _ _ _ _ hid]
          exact hold'

/-- C10 witness. -/
theorem c10_quizNext_witness :
    quizInvariant (quizNext ⟨0, []⟩ (some "Physics")).1 ∧
    (quizNext ⟨0, []⟩ none).1 = (⟨0, []⟩ : QuizState) := by
  have h := c10_quizNext ⟨0, []⟩ (some "Physics") (by decide) (by decide)
  exact ⟨h.2.2, h.1⟩

end CareerGuidance
